import Mathlib

/-!
Shallow embedding of `AsyncServo.h` (EEZYbotARM_MK2): a polled, trapezoidal
motion-ramp controller for a hobby servo.  Machine integers are modelled as
`Nat`/`Int` with explicit modular reductions exactly where the C++ types
truncate (`uint8_t`, `int16_t`, `uint16_t`, `uint32_t`).  Integer promotions
are modelled with 32-bit `int` semantics; all theorems below operate in the
regime where the 16-bit-`int` (AVR) and 32-bit-`int` promotion models agree.
The `DPRINT` macros expand to nothing (DEBUG undefined) and are omitted.
External collaborator calls (`attach`, `writeMicroseconds`) are modelled as a
stored pin and an emitted output value.
-/

/-- Conversion of a mathematical integer to the value of a C++ `int16_t`
holding it (modular, two's complement). -/
def toInt16 (v : Int) : Int := (v + 32768) % 65536 - 32768

/-- Conversion to `uint16_t` (modular). -/
def toUInt16 (v : Int) : Nat := (v % 65536).toNat

/-- Conversion to `uint8_t` (modular). -/
def toUInt8 (v : Int) : Nat := (v % 256).toNat

/-- `uint32_t` subtraction `a - b` (wraparound-safe, modulo 2^32), as used in
the elapsed-time gate `currentMillis - previousMillis`. -/
def sub32 (a b : Nat) : Nat := (((a : Int) - (b : Int)) % 4294967296).toNat

/-- Arduino's `constrain(amt, low, high)` macro:
`(amt < low) ? low : ((amt > high) ? high : amt)`. -/
def constrain (amt low high : Int) : Int :=
  if amt < low then low else if high < amt then high else amt

/-- Arduino's `map(x, in_min, in_max, out_min, out_max)`:
`(x - in_min) * (out_max - out_min) / (in_max - in_min) + out_min`,
computed in `long` with C truncating division. -/
def arduinoMap (x inMin inMax outMin outMax : Int) : Int :=
  Int.tdiv ((x - inMin) * (outMax - outMin)) (inMax - inMin) + outMin

/-- State of one `AsyncServo` instance.  Field names follow the source.
`pin` records the `attach(pin)` call made by `init`. -/
structure AsyncServo where
  pin : Nat
  minBr : Nat
  maxBr : Nat
  minMS : Nat
  maxMS : Nat
  homeMS : Nat
  target : Nat
  current : Nat
  startAngle : Nat
  minInterval : Nat
  startInterval : Nat
  interval : Nat
  previousMillis : Nat
  rampUp : Nat
  rampDown : Nat
deriving Repr, DecidableEq

/-- The state of a freshly constructed `AsyncServo` object: members with
in-class initializers (`target`, `current`, `startAngle`, `previousMillis`
are 0, `minInterval` is 5); the members the C++ code leaves indeterminate
are taken as parameters (`startInterval`, which no code ever assigns) or 0
(the ones `init` always overwrites). -/
def AsyncServo.construct (si : Nat) : AsyncServo :=
  { pin := 0, minBr := 0, maxBr := 0, minMS := 0, maxMS := 0, homeMS := 0,
    target := 0, current := 0, startAngle := 0,
    minInterval := 5, startInterval := si, interval := 0,
    previousMillis := 0, rampUp := 0, rampDown := 0 }

/-- `init(pin, min, max, minB, maxB, home)`: binds the pin, stores the
bounds, derives the ramp thresholds (truncated into `uint8_t`), and maps the
constrained home position into pulse widths (stored in `uint16_t homeMS`).
The first assignment `homeMS = home` is dead (overwritten two lines later). -/
def AsyncServo.init (s : AsyncServo) (pin mn mx minB maxB home : Nat) :
    AsyncServo :=
  { s with
    pin := pin
    minBr := minB
    maxBr := maxB
    minMS := mn
    maxMS := mx
    rampUp := toUInt8 (Int.tdiv ((mx : Int) - (mn : Int)) 3)
    rampDown := toUInt8 (Int.tdiv ((mx : Int) - (mn : Int)) 9)
    homeMS := toUInt16 (arduinoMap (constrain (home : Int) (minB : Int) (maxB : Int))
      (minB : Int) (maxB : Int) (mn : Int) (mx : Int)) }

/-- `home()`: writes `homeMS` to the servo and sets `current = target =
homeMS`.  The second component is the emitted `writeMicroseconds` value. -/
def AsyncServo.home (s : AsyncServo) : AsyncServo × Nat :=
  ({ s with current := s.homeMS, target := s.homeMS }, s.homeMS)

/-- `setTarget(target, duration)`: constrains the requested brad angle,
maps it into pulse widths (through an `int16_t` intermediate), constrains
into `[minMS, maxMS]`, stores it, snapshots `startAngle = current`, resets
`interval = startInterval`, and returns the stored target.  `duration` is
unused by the source. -/
def AsyncServo.setTarget (s : AsyncServo) (target duration : Nat) :
    AsyncServo × Nat :=
  let value : Int := toInt16 (constrain (target : Int) (s.minBr : Int) (s.maxBr : Int))
  let value2 : Int := toInt16 (arduinoMap value (s.minBr : Int) (s.maxBr : Int)
    (s.minMS : Int) (s.maxMS : Int))
  let newTarget : Nat := toUInt16 (constrain value2 (s.minMS : Int) (s.maxMS : Int))
  ({ s with
      target := newTarget
      startAngle := s.current
      interval := s.startInterval }, newTarget)

/-- `update()` with `millis() = now`: no-op at target or while the interval
has not elapsed; otherwise records the step time, adjusts `interval` from
the remaining distance (trapezoidal ramp), moves `current` one unit toward
`target`, and emits it.  `total` is computed by the source but never used. -/
def AsyncServo.update (s : AsyncServo) (now : Nat) : AsyncServo × Option Nat :=
  if s.current = s.target then (s, none)
  else if s.interval < sub32 now s.previousMillis then
    let total : Int := toInt16 ((((s.startAngle : Int) - (s.target : Int)).natAbs : Nat) : Int)
    let remaining : Int := toInt16 ((((s.current : Int) - (s.target : Int)).natAbs : Nat) : Int)
    let interval' : Nat :=
      if remaining < (s.rampDown : Int) then
        if s.interval < s.startInterval then (s.interval + 1) % 256 else s.interval
      else if (s.rampUp : Int) < remaining then
        if s.minInterval < s.interval then s.interval - 1 else s.interval
      else s.interval
    let current' : Nat :=
      if s.target < s.current then s.current - 1
      else if s.current < s.target then (s.current + 1) % 65536
      else s.current
    ({ s with
        previousMillis := now
        interval := interval'
        current := current' }, some current')
  else (s, none)

/-- Fold a list of `update` timestamps over a state, discarding emissions. -/
def AsyncServo.runUpdates (s : AsyncServo) (ts : List Nat) : AsyncServo :=
  ts.foldl (fun a t => (AsyncServo.update a t).1) s

/-- Run `n` ticks at 1 ms cadence: timestamps `t+1, t+2, ..., t+n`. -/
def AsyncServo.cadRun (s : AsyncServo) (t : Nat) : Nat → AsyncServo
  | 0 => s
  | n + 1 => AsyncServo.cadRun (AsyncServo.update s (t + 1)).1 (t + 1) n

/-- Distance between two positions in pulse-width units. -/
def pdist (a b : Nat) : Nat := max a b - min a b

/-- Natural-number clamp, used to state the spec-side resolution formula. -/
def clampNat (n lo hi : Nat) : Nat := if n < lo then lo else if hi < n then hi else n

/-- Natural-number linear interpolation, spec-side counterpart of `map`. -/
def natMap (x iMin iMax oMin oMax : Nat) : Nat :=
  (x - iMin) * (oMax - oMin) / (iMax - iMin) + oMin

/-- Modelled from the spec: the target resolution
`clamp(map(clamp(angle, angle_min, angle_max)), pulse_min, pulse_max)`
that `set_target` is claimed to store. -/
def specResolvedTarget (s : AsyncServo) (angle : Nat) : Nat :=
  clampNat (natMap (clampNat angle s.minBr s.maxBr) s.minBr s.maxBr s.minMS s.maxMS)
    s.minMS s.maxMS

/-! ### Arithmetic helper lemmas -/

lemma toInt16_of_small (v : Int) (h0 : 0 ≤ v) (h1 : v ≤ 32767) : toInt16 v = v := by
  unfold toInt16; omega

lemma toUInt16_natCast (n : Nat) (h : n < 65536) : toUInt16 (n : Int) = n := by
  unfold toUInt16; omega

lemma toUInt8_natCast (n : Nat) (h : n < 256) : toUInt8 (n : Int) = n := by
  unfold toUInt8; omega

lemma tdiv_natCast (p q : Nat) : Int.tdiv (p : Int) (q : Int) = ((p / q : Nat) : Int) := rfl

lemma constrain_natCast (a lo hi : Nat) :
    constrain (a : Int) (lo : Int) (hi : Int) = ((clampNat a lo hi : Nat) : Int) := by
  unfold constrain clampNat
  split_ifs <;> omega

lemma clampNat_mem (a lo hi : Nat) (h : lo ≤ hi) :
    lo ≤ clampNat a lo hi ∧ clampNat a lo hi ≤ hi := by
  unfold clampNat; split_ifs <;> omega

lemma clampNat_of_mem (a lo hi : Nat) (h1 : lo ≤ a) (h2 : a ≤ hi) :
    clampNat a lo hi = a := by
  unfold clampNat; split_ifs <;> omega

lemma clampNat_of_lt (a lo hi : Nat) (h : a < lo) : clampNat a lo hi = lo := by
  unfold clampNat; split_ifs <;> omega

lemma clampNat_of_gt (a lo hi : Nat) (h1 : lo ≤ hi) (h2 : hi < a) : clampNat a lo hi = hi := by
  unfold clampNat; split_ifs <;> omega

lemma arduinoMap_natCast (x iMin iMax oMin oMax : Nat)
    (hx : iMin ≤ x) (hi : iMin ≤ iMax) (ho : oMin ≤ oMax) :
    arduinoMap (x : Int) (iMin : Int) (iMax : Int) (oMin : Int) (oMax : Int) =
      ((natMap x iMin iMax oMin oMax : Nat) : Int) := by
  unfold arduinoMap natMap
  rw [show ((x : Int) - iMin) = ((x - iMin : Nat) : Int) by omega,
    show ((oMax : Int) - oMin) = ((oMax - oMin : Nat) : Int) by omega,
    show ((iMax : Int) - iMin) = ((iMax - iMin : Nat) : Int) by omega,
    ← Nat.cast_mul, tdiv_natCast]
  push_cast
  ring

lemma natMap_lower (x iMin iMax oMin oMax : Nat) :
    oMin ≤ natMap x iMin iMax oMin oMax :=
  Nat.le_add_left _ _

lemma natMap_upper (x iMin iMax oMin oMax : Nat)
    (hx : x ≤ iMax) (hi : iMin < iMax) (ho : oMin ≤ oMax) :
    natMap x iMin iMax oMin oMax ≤ oMax := by
  unfold natMap
  have h1 : (x - iMin) * (oMax - oMin) ≤ (iMax - iMin) * (oMax - oMin) :=
    Nat.mul_le_mul_right _ (by omega)
  have h2 : (x - iMin) * (oMax - oMin) / (iMax - iMin) ≤
      (iMax - iMin) * (oMax - oMin) / (iMax - iMin) :=
    Nat.div_le_div_right h1
  have h3 : (iMax - iMin) * (oMax - oMin) / (iMax - iMin) = oMax - oMin :=
    Nat.mul_div_cancel_left _ (by omega)
  omega

lemma natMap_left (iMin iMax oMin oMax : Nat) :
    natMap iMin iMin iMax oMin oMax = oMin := by
  unfold natMap
  simp

lemma natMap_right (iMin iMax oMin oMax : Nat) (hi : iMin < iMax) (ho : oMin ≤ oMax) :
    natMap iMax iMin iMax oMin oMax = oMax := by
  unfold natMap
  rw [Nat.mul_div_cancel_left _ (by omega : 0 < iMax - iMin)]
  omega

lemma sub32_small (a b : Nat) (h1 : b ≤ a) (h2 : a - b < 4294967296) :
    sub32 a b = a - b := by
  unfold sub32; omega

/-! ### Behaviour of update -/

lemma update_noop (s : AsyncServo) (now : Nat)
    (h : s.current = s.target ∨ sub32 now s.previousMillis ≤ s.interval) :
    s.update now = (s, none) := by
  unfold AsyncServo.update
  by_cases h1 : s.current = s.target
  · rw [if_pos h1]
  · rw [if_neg h1, if_neg (by omega)]

lemma update_fields (s : AsyncServo) (now : Nat) :
    (s.update now).1.pin = s.pin ∧ (s.update now).1.minBr = s.minBr ∧
    (s.update now).1.maxBr = s.maxBr ∧ (s.update now).1.minMS = s.minMS ∧
    (s.update now).1.maxMS = s.maxMS ∧ (s.update now).1.homeMS = s.homeMS ∧
    (s.update now).1.target = s.target ∧ (s.update now).1.startAngle = s.startAngle ∧
    (s.update now).1.minInterval = s.minInterval ∧
    (s.update now).1.startInterval = s.startInterval ∧
    (s.update now).1.rampUp = s.rampUp ∧ (s.update now).1.rampDown = s.rampDown := by
  unfold AsyncServo.update
  split_ifs <;> simp

lemma update_eff (s : AsyncServo) (now : Nat)
    (h1 : s.current ≠ s.target) (h2 : s.interval < sub32 now s.previousMillis)
    (hc : s.current < 32768) (ht : s.target < 32768) :
    (s.update now).1.previousMillis = now ∧
    (s.update now).2 = some ((s.update now).1.current) ∧
    (s.update now).1.current =
      (if s.target < s.current then s.current - 1 else s.current + 1) ∧
    (s.update now).1.interval =
      (if pdist s.current s.target < s.rampDown then
        (if s.interval < s.startInterval then (s.interval + 1) % 256 else s.interval)
       else if s.rampUp < pdist s.current s.target then
        (if s.minInterval < s.interval then s.interval - 1 else s.interval)
       else s.interval) := by
  have hpd : ((s.current : Int) - (s.target : Int)).natAbs = pdist s.current s.target := by
    unfold pdist; omega
  have hsmall : ((pdist s.current s.target : Nat) : Int) ≤ 32767 := by
    unfold pdist; omega
  unfold AsyncServo.update
  rw [if_neg h1, if_pos h2]
  simp only [hpd, toInt16_of_small _ (Int.natCast_nonneg _) hsmall, Nat.cast_lt]
  refine ⟨trivial, trivial, ?_, trivial⟩
  split_ifs <;> omega

lemma update_startAngle_irrel (s : AsyncServo) (other now : Nat) :
    (({ s with startAngle := other } : AsyncServo).update now).1.interval =
      (s.update now).1.interval ∧
    (({ s with startAngle := other } : AsyncServo).update now).1.current =
      (s.update now).1.current := by
  unfold AsyncServo.update
  split_ifs <;> simp

lemma setTarget_ret (s : AsyncServo) (a d : Nat) :
    (s.setTarget a d).1.target = (s.setTarget a d).2 := rfl

lemma setTarget_resolve (s : AsyncServo) (a d : Nat)
    (hBr : s.minBr < s.maxBr) (hBr16 : s.maxBr ≤ 32767)
    (hMS : s.minMS ≤ s.maxMS) (hMS16 : s.maxMS ≤ 32767) :
    (s.setTarget a d).2 =
      natMap (clampNat a s.minBr s.maxBr) s.minBr s.maxBr s.minMS s.maxMS := by
  have hc := clampNat_mem a s.minBr s.maxBr (Nat.le_of_lt hBr)
  have hm1 : s.minMS ≤ natMap (clampNat a s.minBr s.maxBr) s.minBr s.maxBr s.minMS s.maxMS :=
    natMap_lower _ _ _ _ _
  have hm2 : natMap (clampNat a s.minBr s.maxBr) s.minBr s.maxBr s.minMS s.maxMS ≤ s.maxMS :=
    natMap_upper _ _ _ _ _ hc.2 hBr hMS
  simp only [AsyncServo.setTarget]
  rw [constrain_natCast a s.minBr s.maxBr,
    toInt16_of_small _ (Int.natCast_nonneg _) (by omega),
    arduinoMap_natCast _ _ _ _ _ hc.1 (Nat.le_of_lt hBr) hMS,
    toInt16_of_small _ (Int.natCast_nonneg _) (by omega),
    constrain_natCast, clampNat_of_mem _ _ _ hm1 hm2,
    toUInt16_natCast _ (by omega)]

/-- A concrete mid-ramp state used to instantiate hypothesis-bearing
theorems: the configuration of the example scenario (pulse range
1000..2000, brad range 0..180), halfway through a ramp toward 2000. -/
def rampingServo : AsyncServo :=
  { pin := 9, minBr := 0, maxBr := 180, minMS := 1000, maxMS := 2000, homeMS := 1500,
    target := 2000, current := 1500, startAngle := 1500, minInterval := 5,
    startInterval := 30, interval := 30, previousMillis := 0, rampUp := 77, rampDown := 111 }

/-- C1: on every effective step of `update` (current ≠ target and the
elapsed-time gate passes), the new `interval` is determined solely by the
remaining distance `|current - target|`: below `rampDown` it increases by
one saturating at `startInterval`, above `rampUp` it decreases by one
saturating at `minInterval`, otherwise it is unchanged; and two states
differing only in `startAngle` produce identical `interval` and `current`. -/
theorem C1_interval_determined_by_remaining (s : AsyncServo) (now other : Nat)
    (hne : s.current ≠ s.target)
    (hgate : s.interval < sub32 now s.previousMillis)
    (hc : s.current < 32768) (ht : s.target < 32768)
    (hlo : s.minInterval ≤ s.interval) (hhi : s.interval ≤ s.startInterval)
    (hsi : s.startInterval ≤ 255) :
    ((s.update now).1.interval =
      (if pdist s.current s.target < s.rampDown then min (s.interval + 1) s.startInterval
       else if s.rampUp < pdist s.current s.target then max (s.interval - 1) s.minInterval
       else s.interval)) ∧
    (({ s with startAngle := other } : AsyncServo).update now).1.interval =
      (s.update now).1.interval ∧
    (({ s with startAngle := other } : AsyncServo).update now).1.current =
      (s.update now).1.current := by
  obtain ⟨-, -, -, h4⟩ := update_eff s now hne hgate hc ht
  refine ⟨?_, (update_startAngle_irrel s other now).1, (update_startAngle_irrel s other now).2⟩
  rw [h4]
  split_ifs <;> omega

/-- Witness for C1 at a concrete mid-ramp state. -/
theorem C1_interval_determined_by_remaining_witness :
    ((rampingServo.update 100).1.interval =
      (if pdist rampingServo.current rampingServo.target < rampingServo.rampDown then
        min (rampingServo.interval + 1) rampingServo.startInterval
       else if rampingServo.rampUp < pdist rampingServo.current rampingServo.target then
        max (rampingServo.interval - 1) rampingServo.minInterval
       else rampingServo.interval)) ∧
    (({ rampingServo with startAngle := 7 } : AsyncServo).update 100).1.interval =
      (rampingServo.update 100).1.interval ∧
    (({ rampingServo with startAngle := 7 } : AsyncServo).update 100).1.current =
      (rampingServo.update 100).1.current :=
  C1_interval_determined_by_remaining rampingServo 100 7 (by decide) (by decide)
    (by decide) (by decide) (by decide) (by decide) (by decide)

/-- C2: on every effective step, `current` moves by exactly one unit toward
`target` (increment if below, decrement if above), `target` is unchanged,
the distance `|current - target|` decreases by exactly one, and the new
`current` stays between the old `current` and `target` (no overshoot). -/
theorem C2_one_step_no_overshoot (s : AsyncServo) (now : Nat)
    (hne : s.current ≠ s.target)
    (hgate : s.interval < sub32 now s.previousMillis)
    (hc : s.current < 32768) (ht : s.target < 32768) :
    (s.update now).1.target = s.target ∧
    (s.current < s.target → (s.update now).1.current = s.current + 1) ∧
    (s.target < s.current → (s.update now).1.current = s.current - 1) ∧
    pdist (s.update now).1.current s.target + 1 = pdist s.current s.target ∧
    min s.current s.target ≤ (s.update now).1.current ∧
    (s.update now).1.current ≤ max s.current s.target := by
  obtain ⟨-, -, h3, -⟩ := update_eff s now hne hgate hc ht
  refine ⟨(update_fields s now).2.2.2.2.2.2.1, ?_, ?_, ?_, ?_, ?_⟩ <;>
    rw [h3] <;> (try unfold pdist) <;> split_ifs <;> omega

/-- Witness for C2 at a concrete mid-ramp state. -/
theorem C2_one_step_no_overshoot_witness :
    (rampingServo.update 100).1.target = rampingServo.target ∧
    (rampingServo.current < rampingServo.target →
      (rampingServo.update 100).1.current = rampingServo.current + 1) ∧
    (rampingServo.target < rampingServo.current →
      (rampingServo.update 100).1.current = rampingServo.current - 1) ∧
    pdist (rampingServo.update 100).1.current rampingServo.target + 1 =
      pdist rampingServo.current rampingServo.target ∧
    min rampingServo.current rampingServo.target ≤ (rampingServo.update 100).1.current ∧
    (rampingServo.update 100).1.current ≤ max rampingServo.current rampingServo.target :=
  C2_one_step_no_overshoot rampingServo 100 (by decide) (by decide) (by decide) (by decide)

/-- C3: `setTarget` never fails: for every requested angle and duration it
stores `clamp(map(clamp(angle)))` as `target`, snapshots
`startAngle = current`, resets `interval = startInterval`, and returns the
stored target; an out-of-range angle resolves to the pulse width of the
nearest bound. -/
theorem C3_setTarget_resolution (s : AsyncServo) (angle duration : Nat)
    (hBr : s.minBr < s.maxBr) (hBr16 : s.maxBr ≤ 32767)
    (hMS : s.minMS ≤ s.maxMS) (hMS16 : s.maxMS ≤ 32767)
    (hangle : angle < 65536) :
    (s.setTarget angle duration).2 = (s.setTarget angle duration).1.target ∧
    (s.setTarget angle duration).1.target = specResolvedTarget s angle ∧
    (s.setTarget angle duration).1.startAngle = s.current ∧
    (s.setTarget angle duration).1.interval = s.startInterval ∧
    (s.maxBr < angle → (s.setTarget angle duration).2 = s.maxMS) ∧
    (angle < s.minBr → (s.setTarget angle duration).2 = s.minMS) := by
  have hres := setTarget_resolve s angle duration hBr hBr16 hMS hMS16
  have hm1 : s.minMS ≤ natMap (clampNat angle s.minBr s.maxBr) s.minBr s.maxBr s.minMS s.maxMS :=
    natMap_lower _ _ _ _ _
  have hm2 : natMap (clampNat angle s.minBr s.maxBr) s.minBr s.maxBr s.minMS s.maxMS ≤ s.maxMS :=
    natMap_upper _ _ _ _ _ (clampNat_mem angle s.minBr s.maxBr (Nat.le_of_lt hBr)).2 hBr hMS
  refine ⟨(setTarget_ret s angle duration).symm, ?_, rfl, rfl, ?_, ?_⟩
  · rw [setTarget_ret s angle duration, hres]
    unfold specResolvedTarget
    rw [clampNat_of_mem _ _ _ hm1 hm2]
  · intro h
    rw [hres, clampNat_of_gt _ _ _ (Nat.le_of_lt hBr) h, natMap_right _ _ _ _ hBr hMS]
  · intro h
    rw [hres, clampNat_of_lt _ _ _ h, natMap_left]

/-- Witness for C3: requesting 300 brads (above the 0..180 range) resolves
to the maximum pulse width. -/
theorem C3_setTarget_resolution_witness :
    (rampingServo.setTarget 300 500).2 = (rampingServo.setTarget 300 500).1.target ∧
    (rampingServo.setTarget 300 500).1.target = specResolvedTarget rampingServo 300 ∧
    (rampingServo.setTarget 300 500).1.startAngle = rampingServo.current ∧
    (rampingServo.setTarget 300 500).1.interval = rampingServo.startInterval ∧
    (rampingServo.maxBr < 300 → (rampingServo.setTarget 300 500).2 = rampingServo.maxMS) ∧
    (300 < rampingServo.minBr → (rampingServo.setTarget 300 500).2 = rampingServo.minMS) :=
  C3_setTarget_resolution rampingServo 300 500 (by decide) (by decide) (by decide)
    (by decide) (by decide)

/-- C6: with `current ≠ target`, the elapsed-time gate works on
wraparound-safe unsigned 32-bit arithmetic: if `(now - previousMillis) mod
2^32` is at most `interval` the tick changes nothing and emits nothing;
otherwise it records `previousMillis = now` and performs exactly one step
(one emission, distance shrunk by exactly one). -/
theorem C6_elapsed_time_gate (s : AsyncServo) (now : Nat)
    (hne : s.current ≠ s.target)
    (hnow : now < 4294967296)
    (hc : s.current < 32768) (ht : s.target < 32768) :
    ((((now : Int) - (s.previousMillis : Int)) % 4294967296).toNat ≤ s.interval →
      s.update now = (s, none)) ∧
    (s.interval < (((now : Int) - (s.previousMillis : Int)) % 4294967296).toNat →
      (s.update now).1.previousMillis = now ∧
      (s.update now).2 = some ((s.update now).1.current) ∧
      pdist (s.update now).1.current s.target + 1 = pdist s.current s.target) := by
  constructor
  · intro h
    exact update_noop s now (Or.inr h)
  · intro h
    obtain ⟨h1, h2, h3, -⟩ := update_eff s now hne h hc ht
    refine ⟨h1, h2, ?_⟩
    rw [h3]
    unfold pdist
    split_ifs <;> omega

/-- A mid-ramp state whose stored step time sits near the top of the 32-bit
counter, so a small `now` value represents a wrapped timestamp. -/
def wrappedServo : AsyncServo :=
  { rampingServo with previousMillis := 4294967290, interval := 5 }

/-- Witness for C6, exercising a wrapped timestamp counter: `now = 3` with
`previousMillis` near 2^32 gives a correct small elapsed time of 9. -/
theorem C6_elapsed_time_gate_witness :
    (((((3 : Nat) : Int) - (wrappedServo.previousMillis : Int)) % 4294967296).toNat ≤
        wrappedServo.interval → wrappedServo.update 3 = (wrappedServo, none)) ∧
    (wrappedServo.interval <
        ((((3 : Nat) : Int) - (wrappedServo.previousMillis : Int)) % 4294967296).toNat →
      (wrappedServo.update 3).1.previousMillis = 3 ∧
      (wrappedServo.update 3).2 = some ((wrappedServo.update 3).1.current) ∧
      pdist (wrappedServo.update 3).1.current wrappedServo.target + 1 =
        pdist wrappedServo.current wrappedServo.target) :=
  C6_elapsed_time_gate wrappedServo 3 (by decide) (by decide) (by decide) (by decide)

/-- C7: whenever `current = target`, `update` at any timestamp is a no-op:
the state is returned unchanged and nothing is emitted, so arbitrarily many
idle ticks leave the state fixed. -/
theorem C7_idle_idempotent (s : AsyncServo) (h : s.current = s.target) :
    (∀ now, s.update now = (s, none)) ∧ (∀ ts, s.runUpdates ts = s) := by
  have hnoop : ∀ now, s.update now = (s, none) := fun now => update_noop s now (Or.inl h)
  refine ⟨hnoop, ?_⟩
  intro ts
  induction ts with
  | nil => rfl
  | cons t ts ih =>
    unfold AsyncServo.runUpdates
    simp only [List.foldl_cons, hnoop t]
    exact ih

/-- Witness for C7 at the homed example state. -/
theorem C7_idle_idempotent_witness :
    (∀ now, ({ rampingServo with current := 2000 } : AsyncServo).update now =
      ({ rampingServo with current := 2000 }, none)) ∧
    (∀ ts, ({ rampingServo with current := 2000 } : AsyncServo).runUpdates ts =
      { rampingServo with current := 2000 }) :=
  C7_idle_idempotent { rampingServo with current := 2000 } (by decide)

/-- C10: `init` assigns only the pin binding, the brad bounds, the pulse
bounds, the home pulse width and the two ramp thresholds, leaving `current`,
`target`, `startAngle`, `interval`, `previousMillis` and `startInterval`
unchanged; no operation ever assigns `startInterval`; and the `interval`
installed by `setTarget` is exactly the (never-initialized) `startInterval`
value held at that moment. -/
theorem C10_frame_startInterval_never_assigned
    (s : AsyncServo) (pin mn mx minB maxB hm a d now : Nat) :
    (s.init pin mn mx minB maxB hm).current = s.current ∧
    (s.init pin mn mx minB maxB hm).target = s.target ∧
    (s.init pin mn mx minB maxB hm).startAngle = s.startAngle ∧
    (s.init pin mn mx minB maxB hm).interval = s.interval ∧
    (s.init pin mn mx minB maxB hm).previousMillis = s.previousMillis ∧
    (s.init pin mn mx minB maxB hm).startInterval = s.startInterval ∧
    (s.init pin mn mx minB maxB hm).pin = pin ∧
    (s.init pin mn mx minB maxB hm).minBr = minB ∧
    (s.init pin mn mx minB maxB hm).maxBr = maxB ∧
    (s.init pin mn mx minB maxB hm).minMS = mn ∧
    (s.init pin mn mx minB maxB hm).maxMS = mx ∧
    (s.home).1.startInterval = s.startInterval ∧
    (s.setTarget a d).1.startInterval = s.startInterval ∧
    (s.update now).1.startInterval = s.startInterval ∧
    (s.setTarget a d).1.interval = s.startInterval :=
  ⟨rfl, rfl, rfl, rfl, rfl, rfl, rfl, rfl, rfl, rfl, rfl, rfl, rfl,
    (update_fields s now).2.2.2.2.2.2.2.2.2.1, rfl⟩

/-! ### Ramp thresholds (C4) -/

lemma init_ramps (s : AsyncServo) (pin mn mx minB maxB hm : Nat) (h : mn ≤ mx) :
    (s.init pin mn mx minB maxB hm).rampUp = ((mx - mn) / 3) % 256 ∧
    (s.init pin mn mx minB maxB hm).rampDown = ((mx - mn) / 9) % 256 := by
  have e1 : Int.tdiv ((mx - mn : Nat) : Int) 3 = (((mx - mn) / 3 : Nat) : Int) := rfl
  have e2 : Int.tdiv ((mx - mn : Nat) : Int) 9 = (((mx - mn) / 9 : Nat) : Int) := rfl
  unfold AsyncServo.init
  simp only
  rw [show ((mx : Int) - (mn : Int)) = ((mx - mn : Nat) : Int) by omega, e1, e2]
  unfold toUInt8
  constructor <;> omega

/-- C4 counterexample: with the spec's own example range `pulse_min = 1000 <
pulse_max = 2000`, the `uint8_t` storage truncates `(2000-1000)/3 = 333` to
`77` while `(2000-1000)/9 = 111` fits, so `rampDown < rampUp` is false. -/
theorem C4_thresholds_counterexample :
    ((AsyncServo.construct 30).init 9 1000 2000 0 180 90).rampUp = 77 ∧
    ((AsyncServo.construct 30).init 9 1000 2000 0 180 90).rampDown = 111 ∧
    ¬ ((AsyncServo.construct 30).init 9 1000 2000 0 180 90).rampDown <
      ((AsyncServo.construct 30).init 9 1000 2000 0 180 90).rampUp := by
  decide

/-- C4 amended: when the configured span satisfies `3 ≤ pulse_max -
pulse_min ≤ 767` (so `(span)/3` fits `uint8_t`), `init` derives `rampUp =
span/3` and `rampDown = span/9` with `rampDown < rampUp`, and no later
operation changes either threshold. -/
theorem C4_thresholds_amended (s : AsyncServo) (pin mn mx minB maxB hm a d now : Nat)
    (h3 : mn + 3 ≤ mx) (h767 : mx - mn ≤ 767) :
    (s.init pin mn mx minB maxB hm).rampUp = (mx - mn) / 3 ∧
    (s.init pin mn mx minB maxB hm).rampDown = (mx - mn) / 9 ∧
    (s.init pin mn mx minB maxB hm).rampDown < (s.init pin mn mx minB maxB hm).rampUp ∧
    (s.home).1.rampUp = s.rampUp ∧ (s.home).1.rampDown = s.rampDown ∧
    (s.setTarget a d).1.rampUp = s.rampUp ∧ (s.setTarget a d).1.rampDown = s.rampDown ∧
    (s.update now).1.rampUp = s.rampUp ∧ (s.update now).1.rampDown = s.rampDown := by
  obtain ⟨hu, hd⟩ := init_ramps s pin mn mx minB maxB hm (by omega)
  refine ⟨?_, ?_, ?_, rfl, rfl, rfl, rfl,
    (update_fields s now).2.2.2.2.2.2.2.2.2.2.1,
    (update_fields s now).2.2.2.2.2.2.2.2.2.2.2⟩
  · rw [hu]; omega
  · rw [hd]; omega
  · rw [hu, hd]; omega

/-- Witness for the amended C4 at span 600 (thresholds 200 and 66). -/
theorem C4_thresholds_amended_witness :
    ((AsyncServo.construct 30).init 9 1000 1600 0 180 90).rampUp = (1600 - 1000) / 3 ∧
    ((AsyncServo.construct 30).init 9 1000 1600 0 180 90).rampDown = (1600 - 1000) / 9 ∧
    ((AsyncServo.construct 30).init 9 1000 1600 0 180 90).rampDown <
      ((AsyncServo.construct 30).init 9 1000 1600 0 180 90).rampUp ∧
    ((AsyncServo.construct 30).home).1.rampUp = (AsyncServo.construct 30).rampUp ∧
    ((AsyncServo.construct 30).home).1.rampDown = (AsyncServo.construct 30).rampDown ∧
    ((AsyncServo.construct 30).setTarget 10 100).1.rampUp = (AsyncServo.construct 30).rampUp ∧
    ((AsyncServo.construct 30).setTarget 10 100).1.rampDown = (AsyncServo.construct 30).rampDown ∧
    ((AsyncServo.construct 30).update 7).1.rampUp = (AsyncServo.construct 30).rampUp ∧
    ((AsyncServo.construct 30).update 7).1.rampDown = (AsyncServo.construct 30).rampDown :=
  C4_thresholds_amended (AsyncServo.construct 30) 9 1000 1600 0 180 90 10 100 7
    (by decide) (by decide)

/-! ### Interval bounds invariant (C5) -/

/-- The interval invariant claimed by the spec, together with the `uint8_t`
bound that makes the saturating increment exact. -/
def intervalInv (s : AsyncServo) : Prop :=
  s.minInterval ≤ s.interval ∧ s.interval ≤ s.startInterval ∧ s.startInterval ≤ 255

lemma update_intervalInv (s : AsyncServo) (now : Nat) (h : intervalInv s) :
    intervalInv (s.update now).1 := by
  unfold intervalInv at h ⊢
  by_cases h1 : s.current = s.target
  · rw [update_noop s now (Or.inl h1)]; exact h
  · by_cases h2 : s.interval < sub32 now s.previousMillis
    · unfold AsyncServo.update
      rw [if_neg h1, if_pos h2]
      simp only
      split_ifs <;> omega
    · rw [update_noop s now (Or.inr (by omega))]; exact h

lemma runUpdates_intervalInv (s : AsyncServo) (ts : List Nat) (h : intervalInv s) :
    intervalInv (s.runUpdates ts) := by
  induction ts generalizing s with
  | nil => exact h
  | cons t ts ih =>
    unfold AsyncServo.runUpdates
    simp only [List.foldl_cons]
    exact ih _ (update_intervalInv s t h)

lemma runUpdates_fields (s : AsyncServo) (ts : List Nat) :
    (s.runUpdates ts).minInterval = s.minInterval ∧
    (s.runUpdates ts).startInterval = s.startInterval := by
  induction ts generalizing s with
  | nil => exact ⟨rfl, rfl⟩
  | cons t ts ih =>
    unfold AsyncServo.runUpdates
    simp only [List.foldl_cons]
    obtain ⟨ha, hb⟩ := ih (s.update t).1
    obtain ⟨-, -, -, -, -, -, -, -, hm, hs, -, -⟩ := update_fields s t
    unfold AsyncServo.runUpdates at ha hb
    exact ⟨ha.trans hm, hb.trans hs⟩

/-- C5 counterexample: `startInterval` is never assigned by any operation;
if the indeterminate `startInterval` is 0, then immediately after
`setTarget` the installed `interval` is 0, below `minInterval = 5`, so the
claimed lower bound fails right after `set_target`. -/
theorem C5_interval_bounds_counterexample :
    (((AsyncServo.construct 0).init 9 1000 2000 0 180 90).setTarget 100 500).1.interval = 0 ∧
    (((AsyncServo.construct 0).init 9 1000 2000 0 180 90).setTarget 100 500).1.minInterval = 5 ∧
    ¬ (((AsyncServo.construct 0).init 9 1000 2000 0 180 90).setTarget 100 500).1.minInterval ≤
      (((AsyncServo.construct 0).init 9 1000 2000 0 180 90).setTarget 100 500).1.interval := by
  decide

/-- C5 amended: provided `minInterval ≤ startInterval` (which the code never
establishes, `startInterval` being uninitialized) and `startInterval ≤ 255`
(its `uint8_t` range), every state reached from a `setTarget` by arbitrarily
many `update` ticks keeps `minInterval ≤ interval ≤ startInterval`. -/
theorem C5_interval_bounds_amended (s : AsyncServo) (a d : Nat) (ts : List Nat)
    (h1 : s.minInterval ≤ s.startInterval) (h2 : s.startInterval ≤ 255) :
    s.minInterval ≤ ((s.setTarget a d).1.runUpdates ts).interval ∧
    ((s.setTarget a d).1.runUpdates ts).interval ≤ s.startInterval := by
  have hst : intervalInv (s.setTarget a d).1 := ⟨h1, Nat.le_refl _, h2⟩
  have hrun := runUpdates_intervalInv _ ts hst
  obtain ⟨hm, hs⟩ := runUpdates_fields (s.setTarget a d).1 ts
  unfold intervalInv at hrun
  constructor
  · have : (s.setTarget a d).1.minInterval = s.minInterval := rfl
    omega
  · have : (s.setTarget a d).1.startInterval = s.startInterval := rfl
    omega

/-- Witness for the amended C5 on the example configuration with two ticks. -/
theorem C5_interval_bounds_amended_witness :
    rampingServo.minInterval ≤
      ((rampingServo.setTarget 0 100).1.runUpdates [40, 80]).interval ∧
    ((rampingServo.setTarget 0 100).1.runUpdates [40, 80]).interval ≤
      rampingServo.startInterval :=
  C5_interval_bounds_amended rampingServo 0 100 [40, 80] (by decide) (by decide)

/-! ### Position range invariant (C9) -/

/-- `v` lies in the configured pulse-width range of `s`. -/
def inRange (s : AsyncServo) (v : Nat) : Prop := s.minMS ≤ v ∧ v ≤ s.maxMS

/-- Home, current and target pulse widths all lie in the configured range. -/
def posInv (s : AsyncServo) : Prop :=
  inRange s s.homeMS ∧ inRange s s.current ∧ inRange s s.target

/-- `posInv` together with the `startAngle` snapshot in range (established
only once `setTarget` has copied `current` into it). -/
def posInvFull (s : AsyncServo) : Prop := posInv s ∧ inRange s s.startAngle

lemma constrain_bounds (v lo hi : Int) (h : lo ≤ hi) :
    lo ≤ constrain v lo hi ∧ constrain v lo hi ≤ hi := by
  unfold constrain; split_ifs <;> omega

lemma toUInt16_bounds (v : Int) (lo hi : Nat) (h1 : (lo : Int) ≤ v)
    (h2 : v ≤ (hi : Int)) (h3 : hi < 65536) :
    lo ≤ toUInt16 v ∧ toUInt16 v ≤ hi := by
  unfold toUInt16; omega

lemma init_homeMS_range (s : AsyncServo) (pin mn mx mb xb hm : Nat)
    (hmb : mb < xb) (hmn : mn ≤ mx) (hmx : mx < 65536) :
    mn ≤ (s.init pin mn mx mb xb hm).homeMS ∧ (s.init pin mn mx mb xb hm).homeMS ≤ mx := by
  have hc := clampNat_mem hm mb xb (Nat.le_of_lt hmb)
  have hmap1 : mn ≤ natMap (clampNat hm mb xb) mb xb mn mx := natMap_lower _ _ _ _ _
  have hmap2 : natMap (clampNat hm mb xb) mb xb mn mx ≤ mx :=
    natMap_upper _ _ _ _ _ hc.2 hmb hmn
  unfold AsyncServo.init
  simp only
  rw [constrain_natCast, arduinoMap_natCast _ _ _ _ _ hc.1 (Nat.le_of_lt hmb) hmn,
    toUInt16_natCast _ (by omega)]
  exact ⟨hmap1, hmap2⟩

lemma setTarget_target_range (s : AsyncServo) (a d : Nat)
    (hMS : s.minMS ≤ s.maxMS) (hMS16 : s.maxMS < 65536) :
    s.minMS ≤ (s.setTarget a d).1.target ∧ (s.setTarget a d).1.target ≤ s.maxMS := by
  simp only [AsyncServo.setTarget]
  have hcb := constrain_bounds (toInt16 (arduinoMap
    (toInt16 (constrain (a : Int) (s.minBr : Int) (s.maxBr : Int)))
    (s.minBr : Int) (s.maxBr : Int) (s.minMS : Int) (s.maxMS : Int)))
    (s.minMS : Int) (s.maxMS : Int) (by exact_mod_cast hMS)
  exact toUInt16_bounds _ _ _ hcb.1 hcb.2 hMS16

lemma update_posInvFull (s : AsyncServo) (now : Nat)
    (hMS16 : s.maxMS < 65536) (h : posInvFull s) :
    posInvFull (s.update now).1 := by
  unfold posInvFull posInv inRange at h ⊢
  by_cases h1 : s.current = s.target
  · rw [update_noop s now (Or.inl h1)]; exact h
  · by_cases h2 : s.interval < sub32 now s.previousMillis
    · unfold AsyncServo.update
      rw [if_neg h1, if_pos h2]
      simp only
      split_ifs <;> omega
    · rw [update_noop s now (Or.inr (by omega))]; exact h

lemma runUpdates_posInvFull (s : AsyncServo) (ts : List Nat)
    (hMS16 : s.maxMS < 65536) (h : posInvFull s) :
    posInvFull (s.runUpdates ts) := by
  induction ts generalizing s with
  | nil => exact h
  | cons t ts ih =>
    unfold AsyncServo.runUpdates
    simp only [List.foldl_cons]
    have hmx : ((s.update t).1).maxMS = s.maxMS := (update_fields s t).2.2.2.2.1
    exact ih (s.update t).1 (by rw [hmx]; exact hMS16) (update_posInvFull s t hMS16 h)

/-- C9 counterexample: immediately after `init` with valid bounds
(`pulse_min = 1000 < pulse_max = 2000`, `angle_min = 0 < angle_max = 180`),
`current` is still its constructed value 0, outside `[1000, 2000]` — `init`
assigns neither `current` nor `target` nor `startAngle`. -/
theorem C9_position_range_counterexample :
    ((AsyncServo.construct 30).init 9 1000 2000 0 180 90).current = 0 ∧
    ¬ ((AsyncServo.construct 30).init 9 1000 2000 0 180 90).minMS ≤
      ((AsyncServo.construct 30).init 9 1000 2000 0 180 90).current := by
  decide

/-- C9 amended: `init` puts `homeMS` in range; `home()` then establishes
`current, target ∈ [minMS, maxMS]`; the first `setTarget` additionally
establishes `startAngle ∈ [minMS, maxMS]`; and every operation (`home`,
`setTarget`, `update`, any sequence of updates) preserves the established
ranges.  Before `home()` the invariant does not hold (see the
counterexample). -/
theorem C9_position_range_amended (s s0 : AsyncServo)
    (pin mn mx mb xb hm a d now : Nat) (ts : List Nat)
    (hmb : mb < xb) (hmn : mn ≤ mx) (hmx : mx < 65536)
    (hMS : s.minMS ≤ s.maxMS) (hMS16 : s.maxMS < 65536) :
    (mn ≤ (s0.init pin mn mx mb xb hm).homeMS ∧ (s0.init pin mn mx mb xb hm).homeMS ≤ mx) ∧
    (inRange s s.homeMS → posInv (s.home).1) ∧
    (posInvFull s → posInvFull (s.home).1) ∧
    (posInv s → posInvFull (s.setTarget a d).1) ∧
    (posInvFull s → posInvFull (s.update now).1) ∧
    (posInvFull s → posInvFull (s.runUpdates ts)) := by
  refine ⟨init_homeMS_range s0 pin mn mx mb xb hm hmb hmn hmx, ?_, ?_, ?_,
    update_posInvFull s now hMS16, runUpdates_posInvFull s ts hMS16⟩
  · intro hh
    exact ⟨hh, hh, hh⟩
  · intro hf
    exact ⟨⟨hf.1.1, hf.1.1, hf.1.1⟩, hf.2⟩
  · intro hp
    exact ⟨⟨hp.1, hp.2.1, setTarget_target_range s a d hMS hMS16⟩, hp.2.1⟩

/-- Witness for the amended C9 at the homed example configuration. -/
theorem C9_position_range_amended_witness :
    (1000 ≤ ((AsyncServo.construct 30).init 9 1000 2000 0 180 90).homeMS ∧
      ((AsyncServo.construct 30).init 9 1000 2000 0 180 90).homeMS ≤ 2000) ∧
    (inRange rampingServo rampingServo.homeMS → posInv (rampingServo.home).1) ∧
    (posInvFull rampingServo → posInvFull (rampingServo.home).1) ∧
    (posInv rampingServo → posInvFull (rampingServo.setTarget 0 100).1) ∧
    (posInvFull rampingServo → posInvFull (rampingServo.update 50).1) ∧
    (posInvFull rampingServo → posInvFull (rampingServo.runUpdates [40, 80])) :=
  C9_position_range_amended rampingServo (AsyncServo.construct 30) 9 1000 2000 0 180 90
    0 100 50 [40, 80] (by decide) (by decide) (by decide) (by decide) (by decide)

/-! ### Convergence of the 1 ms-cadence run (C8) -/

lemma update_interval_le (s : AsyncServo) (now : Nat) (h : s.interval ≤ 255) :
    (s.update now).1.interval ≤ 255 := by
  by_cases h1 : s.current = s.target
  · rw [update_noop s now (Or.inl h1)]; exact h
  · by_cases h2 : s.interval < sub32 now s.previousMillis
    · unfold AsyncServo.update
      rw [if_neg h1, if_pos h2]
      simp only
      split_ifs <;> omega
    · rw [update_noop s now (Or.inr (by omega))]; exact h

lemma cadRun_stable (s : AsyncServo) (t n : Nat) (h : s.current = s.target) :
    s.cadRun t n = s := by
  induction n generalizing t with
  | zero => rfl
  | succ n ih =>
    unfold AsyncServo.cadRun
    rw [update_noop s (t + 1) (Or.inl h)]
    exact ih (t + 1)

lemma cadRun_succ (s : AsyncServo) (t n : Nat) :
    s.cadRun t (n + 1) = ((s.update (t + 1)).1).cadRun (t + 1) n := rfl

lemma cadRun_add (s : AsyncServo) (t a b : Nat) :
    s.cadRun t (a + b) = (s.cadRun t a).cadRun (t + a) b := by
  induction a generalizing s t with
  | zero => rw [Nat.zero_add, Nat.add_zero]; rfl
  | succ a ih =>
    rw [show a + 1 + b = (a + b) + 1 by omega, cadRun_succ, ih, cadRun_succ,
      show t + 1 + a = t + (a + 1) by omega]

lemma cadRun_noop_phase (s : AsyncServo) (t m : Nat)
    (hm : m ≤ s.previousMillis + s.interval - t)
    (hp : s.previousMillis ≤ t) (hbound : t + m < 4294967296) :
    s.cadRun t m = s := by
  induction m generalizing t with
  | zero => rfl
  | succ m ih =>
    unfold AsyncServo.cadRun
    have hnoop : s.update (t + 1) = (s, none) := by
      apply update_noop
      right
      rw [sub32_small _ _ (by omega) (by omega)]
      omega
    rw [hnoop]
    exact ih (t + 1) (by omega) (by omega) (by omega)

lemma converge (d : Nat) : ∀ (s : AsyncServo) (t : Nat),
    pdist s.current s.target ≤ d →
    s.previousMillis ≤ t →
    s.interval ≤ 255 →
    s.current < 32768 → s.target < 32768 →
    t + 257 * d < 4294967296 →
    (s.cadRun t (257 * d)).current = s.target ∧
    (s.cadRun t (257 * d)).target = s.target := by
  induction d with
  | zero =>
    intro s t hd _ _ _ _ _
    have heq : s.current = s.target := by unfold pdist at hd; omega
    rw [Nat.mul_zero]
    exact ⟨heq, rfl⟩
  | succ d ih =>
    intro s t hd hp hint hc ht hbound
    by_cases heq : s.current = s.target
    · rw [cadRun_stable s t _ heq]
      exact ⟨heq, rfl⟩
    · set m := s.previousMillis + s.interval - t with hm
      have hm255 : m ≤ 255 := by omega
      have hphase : s.cadRun t m = s :=
        cadRun_noop_phase s t m (by omega) hp (by omega)
      have hgate : s.interval < sub32 (t + m + 1) s.previousMillis := by
        rw [sub32_small _ _ (by omega) (by omega)]
        omega
      obtain ⟨e1, -, e3, -⟩ := update_eff s (t + m + 1) heq hgate hc ht
      obtain ⟨-, -, -, -, -, -, etg, -, -, -, -, -⟩ := update_fields s (t + m + 1)
      have hone : s.cadRun (t + m) 1 = (s.update (t + m + 1)).1 := rfl
      have hNm : 257 * (d + 1) = m + (1 + (257 * d + (256 - m))) := by omega
      rw [hNm, cadRun_add, hphase, cadRun_add, hone, cadRun_add]
      obtain ⟨ih1, ih2⟩ := ih (s.update (t + m + 1)).1 (t + m + 1)
        (by rw [etg]; unfold pdist at hd ⊢; rw [e3]; split_ifs <;> omega)
        (by rw [e1])
        (update_interval_le s (t + m + 1) hint)
        (by rw [e3]; split_ifs <;> omega)
        (by rw [etg]; exact ht)
        (by omega)
      rw [etg] at ih1 ih2
      rw [cadRun_stable _ _ _ (ih1.trans ih2.symm)]
      exact ⟨ih1, ih2⟩

/-- The state of `setTarget` depends on `startInterval` only through the
`interval` field it installs. -/
lemma setTarget_startInterval_split (s : AsyncServo) (si a d : Nat) :
    (({ s with startInterval := si } : AsyncServo).setTarget a d).1 =
      { (s.setTarget a d).1 with startInterval := si, interval := si } := rfl

lemma setTarget_startInterval_ret (s : AsyncServo) (si a d : Nat) :
    (({ s with startInterval := si } : AsyncServo).setTarget a d).2 =
      (s.setTarget a d).2 := rfl

/-- The example scenario's `init` call, with the indeterminate
`startInterval` left as a parameter: pulse range 1000..2000, brad range
0..180, configured home position 90 brads (the midpoint, pulse width 1500). -/
def scenarioServo (si : Nat) : AsyncServo :=
  (AsyncServo.construct si).init 9 1000 2000 0 180 90

/-- C8 counterexample: feeding the claim's literal `pulse_home = 1500` as
`init`'s home argument, the code constrains it to the brad range `[0, 180]`
(yielding 180) and maps it to pulse width 2000, so `home()` sets
`current = 2000`, not 1500 as the claim states. -/
theorem C8_scenario_counterexample :
    (((AsyncServo.construct 30).init 9 1000 2000 0 180 1500).home).1.current = 2000 ∧
    ¬ (((AsyncServo.construct 30).init 9 1000 2000 0 180 1500).home).1.current = 1500 := by
  decide

/-- C8 amended: the home parameter is a brad angle, so the pulse width 1500
is reached by configuring home angle 90; then `home()` emits and sets 1500,
`setTarget(180, 500)` resolves and returns 2000, and — for every possible
value of the uninitialized `uint8_t startInterval` — ticking at 1 ms cadence
from time 0 eventually drives `current` to exactly 2000, after which every
further tick is a no-op. -/
theorem C8_scenario_amended (si : Nat) (hsi : si ≤ 255) :
    ((scenarioServo si).home).2 = 1500 ∧
    ((scenarioServo si).home).1.current = 1500 ∧
    (((scenarioServo si).home).1.setTarget 180 500).2 = 2000 ∧
    ∃ n, ((((scenarioServo si).home).1.setTarget 180 500).1.cadRun 0 n).current = 2000 ∧
      ((((scenarioServo si).home).1.setTarget 180 500).1.cadRun 0 n).target = 2000 ∧
      ∀ now, ((((scenarioServo si).home).1.setTarget 180 500).1.cadRun 0 n).update now =
        ((((scenarioServo si).home).1.setTarget 180 500).1.cadRun 0 n, none) := by
  have hhome1 : ((scenarioServo si).home).1 =
      { ((scenarioServo 0).home).1 with startInterval := si } := rfl
  have hhome2 : ((scenarioServo si).home).2 = ((scenarioServo 0).home).2 := rfl
  have hsplit : (((scenarioServo si).home).1.setTarget 180 500).1 =
      { (((scenarioServo 0).home).1.setTarget 180 500).1 with
          startInterval := si
          interval := si } := by
    rw [hhome1, setTarget_startInterval_split]
  have hret : (((scenarioServo si).home).1.setTarget 180 500).2 =
      (((scenarioServo 0).home).1.setTarget 180 500).2 := by
    rw [hhome1, setTarget_startInterval_ret]
  have hcur0 : (((scenarioServo 0).home).1.setTarget 180 500).1.current = 1500 := by decide
  have htar0 : (((scenarioServo 0).home).1.setTarget 180 500).1.target = 2000 := by decide
  have hprev0 : (((scenarioServo 0).home).1.setTarget 180 500).1.previousMillis = 0 := by
    decide
  refine ⟨by rw [hhome2]; decide,
    by rw [hhome1]; show ((scenarioServo 0).home).1.current = 1500; decide,
    by rw [hret]; decide, 257 * 500, ?_⟩
  rw [hsplit]
  obtain ⟨c1, c2⟩ := converge 500
    ({ (((scenarioServo 0).home).1.setTarget 180 500).1 with
        startInterval := si
        interval := si } : AsyncServo) 0
    (by simp only [pdist]; rw [show ({ (((scenarioServo 0).home).1.setTarget 180 500).1 with
        startInterval := si, interval := si } : AsyncServo).current =
        (((scenarioServo 0).home).1.setTarget 180 500).1.current from rfl,
      show ({ (((scenarioServo 0).home).1.setTarget 180 500).1 with
        startInterval := si, interval := si } : AsyncServo).target =
        (((scenarioServo 0).home).1.setTarget 180 500).1.target from rfl,
      hcur0, htar0]; decide)
    (by rw [show ({ (((scenarioServo 0).home).1.setTarget 180 500).1 with
        startInterval := si, interval := si } : AsyncServo).previousMillis =
        (((scenarioServo 0).home).1.setTarget 180 500).1.previousMillis from rfl, hprev0])
    (by exact hsi)
    (by rw [show ({ (((scenarioServo 0).home).1.setTarget 180 500).1 with
        startInterval := si, interval := si } : AsyncServo).current =
        (((scenarioServo 0).home).1.setTarget 180 500).1.current from rfl, hcur0]; decide)
    (by rw [show ({ (((scenarioServo 0).home).1.setTarget 180 500).1 with
        startInterval := si, interval := si } : AsyncServo).target =
        (((scenarioServo 0).home).1.setTarget 180 500).1.target from rfl, htar0]; decide)
    (by decide)
  have htS : ({ (((scenarioServo 0).home).1.setTarget 180 500).1 with
      startInterval := si, interval := si } : AsyncServo).target = 2000 := htar0
  rw [htS] at c2
  rw [htS] at c1
  exact ⟨c1, c2, fun now => update_noop _ now (Or.inl (c1.trans c2.symm))⟩

/-- Witness for the amended C8 at `startInterval = 30`. -/
theorem C8_scenario_amended_witness :
    ((scenarioServo 30).home).2 = 1500 ∧
    ((scenarioServo 30).home).1.current = 1500 ∧
    (((scenarioServo 30).home).1.setTarget 180 500).2 = 2000 ∧
    ∃ n, ((((scenarioServo 30).home).1.setTarget 180 500).1.cadRun 0 n).current = 2000 ∧
      ((((scenarioServo 30).home).1.setTarget 180 500).1.cadRun 0 n).target = 2000 ∧
      ∀ now, ((((scenarioServo 30).home).1.setTarget 180 500).1.cadRun 0 n).update now =
        ((((scenarioServo 30).home).1.setTarget 180 500).1.cadRun 0 n, none) :=
  C8_scenario_amended 30 (by decide)
